import Mathlib

/-!
Shallow embedding of the ElmitecPython client library
(`src/elmitec/_io.py`, `src/elmitec/_leem2000.py`, `src/elmitec/_uview.py`).

Modelling conventions:
* Bytes are `Nat` (values 0..255); a byte stream read one byte at a time
  is a `List Nat` (exhaustion of the list = the peer closed the stream).
* For `Mode.BINARY` reads, which call `sock.recv(k)` with varying `k`, the
  transport is modelled as the trace of chunk results successive `recv`
  calls return: a `List (List Nat)`.  Exhaustion of the trace while the
  loop still wants data models a closed stream (`recv` returning `b''`
  forever), i.e. the Python loop never terminates; the model returns
  `none` for that divergence.
* Python `dict`s are association lists in insertion order: assignment to
  an existing key replaces in place, a new key is appended — exactly
  Python's ordering guarantee.
* Python `float` values that the library parses from protocol text are
  modelled exactly as scaled decimals (`PyFloat`, value `num / 10 ^ exp`
  in lowest decimal terms); the claims under verification concern
  structure (which entries exist, in which order, how an integer is
  obtained from a value), never binary floating-point rounding, and on
  every concrete input appearing below the decimal model and the IEEE
  double agree.
* String primitives (`split`, `strip`, case mapping) are implemented
  structurally over `List Char` with the semantics of the Python
  methods the source calls, so that every definition evaluates inside
  the kernel.
* The session objects' sockets are abstracted into a reply oracle
  `String → String`: the null-terminated reply text the peer sends for a
  given command text (each command in one scan is textually distinct).
-/

namespace Elmitec

/-- Python exception kinds raised by the modelled code paths. -/
inductive PyErr where
  | connectionError
  | valueError
  | typeError
  | indexError
  | unicodeError
  | systemError
  deriving DecidableEq, Repr

/-! ### Python dict as insertion-ordered association list -/

/-- Python dict assignment `d[k] = v`: replace in place if the key exists,
append otherwise. -/
def dinsert {K V : Type} [DecidableEq K] (k : K) (v : V) :
    List (K × V) → List (K × V)
  | [] => [(k, v)]
  | (k', v') :: rest =>
      if k' = k then (k, v) :: rest else (k', v') :: dinsert k v rest

/-- Python dict lookup `d.get(k)`. -/
def dlookup {K V : Type} [DecidableEq K] (k : K) :
    List (K × V) → Option V
  | [] => none
  | (k', v') :: rest => if k' = k then some v' else dlookup k rest

/-- Python dict membership `k in d.keys()`. -/
def dmem {K V : Type} [DecidableEq K] (k : K) (d : List (K × V)) : Bool :=
  (dlookup k d).isSome

/-! ### Python string primitives (structural, over `List Char`) -/

/-- Python `s.strip()` on the character list: drop leading and trailing
whitespace.  (Char.isWhitespace covers the ASCII whitespace the
protocol uses.) -/
def pyStripChars (cs : List Char) : List Char :=
  ((cs.dropWhile Char.isWhitespace).reverse.dropWhile Char.isWhitespace).reverse

/-- Python `s.upper()` (ASCII; the module directory names the claims
use are ASCII). -/
def pyUpper (s : String) : String :=
  String.mk (s.data.map Char.toUpper)

/-- Split a character list at every separator the predicate accepts,
keeping empty pieces — the semantics of Python `s.split(sep)` for a
one-character `sep` when the predicate is equality with `sep`. -/
def splitPred (p : Char → Bool) : List Char → List (List Char)
  | [] => [[]]
  | c :: rest =>
      let r := splitPred p rest
      if p c then [] :: r
      else
        match r with
        | g :: gs => (c :: g) :: gs
        | [] => [[c]]

/-- Python `s.split()` (no argument): split on whitespace runs,
dropping empty pieces. -/
def pySplit (s : String) : List String :=
  ((splitPred Char.isWhitespace s.data).filter (fun g => g ≠ [])).map
    (fun g => String.mk g)

/-- Leading-sign split used by Python's numeric constructors. -/
def signSplit : List Char → Int × List Char
  | '-' :: rest => (-1, rest)
  | '+' :: rest => (1, rest)
  | cs => (1, cs)

/-! ### Python numeric parsing -/

/-- Decimal digit-string value; `none` on an empty or non-digit string.
(Python's underscore digit grouping is not modelled; no protocol reply
in the claims uses it.) -/
def parseDigits : List Char → Option Nat
  | [] => none
  | cs =>
      if cs.all Char.isDigit then
        some (cs.foldl (fun a c => 10 * a + (c.toNat - 48)) 0)
      else none

/-- Python `int(s)`: strip surrounding whitespace, optional sign,
decimal digits. -/
def pyInt? (s : String) : Option Int :=
  let (sgn, cs) := signSplit (pyStripChars s.data)
  (parseDigits cs).map (fun n => sgn * (n : Int))

/-- The exact value of a finite Python float: `num / 10 ^ exp`, kept
with no trailing decimal zeros (so equal values have equal
representations).  Exact decimals stand in for IEEE doubles; no claim
under verification depends on binary rounding, and on every concrete
input below the two agree. -/
structure PyFloat where
  num : Int
  exp : Nat
  deriving DecidableEq, Repr

/-- Strip factors of ten shared between `num` and `10 ^ exp`. -/
def pyFloatCanon : Int → Nat → PyFloat
  | n, 0 => ⟨n, 0⟩
  | n, e + 1 => if n % 10 = 0 then pyFloatCanon (n / 10) e else ⟨n, e + 1⟩

/-- Apply a decimal exponent `e` to the scaled decimal `n / 10 ^ exp`. -/
def pyFloatApplyExp (n : Int) (exp : Nat) (e : Int) : PyFloat :=
  let ne : Int := (exp : Int) - e
  if ne ≤ 0 then pyFloatCanon (n * (10 : Int) ^ (-ne).toNat) 0
  else pyFloatCanon n ne.toNat

/-- Mantissa of a Python float literal — `d+`, `d+.d*`, `.d+`, `d+.` —
as an unsigned scaled decimal (digits value, fraction length). -/
def parseMantissa (m : List Char) : Option (Int × Nat) :=
  match splitPred (fun c => c = '.') m with
  | [i] => (parseDigits i).map (fun n => ((n : Int), 0))
  | [i, f] =>
      if i = [] ∧ f = [] then none
      else
        let iv? : Option Nat := if i = [] then some 0 else parseDigits i
        let fv? : Option Nat := if f = [] then some 0 else parseDigits f
        match iv?, fv? with
        | some iv, some fv =>
            some ((iv : Int) * (10 : Int) ^ f.length + (fv : Int), f.length)
        | _, _ => none
  | _ => none

/-- Exponent part of a Python float literal: optional sign and digits. -/
def parseExp (e : List Char) : Option Int :=
  let (sgn, cs) := signSplit e
  (parseDigits cs).map (fun n => sgn * (n : Int))

/-- Python `float(s)` on finite decimal notation: strip whitespace,
optional sign, mantissa, optional `e`/`E` exponent.  (`inf`/`nan`
literals are outside the model; no claim involves them.) -/
def pyFloat? (s : String) : Option PyFloat :=
  let cs := (pyStripChars s.data).map Char.toLower
  let (sgn, cs) := signSplit cs
  match splitPred (fun c => c = 'e') cs with
  | [m] => (parseMantissa m).map (fun p => pyFloatCanon (sgn * p.1) p.2)
  | [m, e] =>
      match parseMantissa m, parseExp e with
      | some p, some ev => some (pyFloatApplyExp (sgn * p.1) p.2 ev)
      | _, _ => none
  | _ => none

/-- The sentinel replies `update_modules` filters out:
`["", "no name", "invalid", "disabled"]`. -/
def isSentinel (s : String) : Bool :=
  s = "" || s = "no name" || s = "invalid" || s = "disabled"

/-! ### Framing layer (`_io.py`) -/

/-- Encoding `data.encode('ascii')`: `none` models `UnicodeEncodeError` on any
character with code point ≥ 128. -/
def encodeAscii (s : String) : Option (List Nat) :=
  if s.data.all (fun c => c.toNat < 128) then some (s.data.map Char.toNat)
  else none

/-- Send path `_send(sock, data, Mode.STRING, delim)`: the bytes written to the
socket, `none` on an encode error
(`(data + '\x00').encode('ascii')` when `delim`). -/
def sendString (s : String) (delim : Bool) : Option (List Nat) :=
  if delim then encodeAscii (s.push '\x00') else encodeAscii s

/-- The `Mode.STRING` receive loop of `_receive`: one byte at a time
until a `0` byte or the end of the stream, decoded as ISO 8859-1
(byte value = code point). -/
def receiveStringAux : List Nat → List Char
  | [] => []
  | b :: rest => if b = 0 then [] else Char.ofNat b :: receiveStringAux rest

/-- Receive path `_receive(sock, Mode.STRING)` on a byte stream. -/
def receiveString (bs : List Nat) : String :=
  String.mk (receiveStringAux bs)

/-- Receive path `_receive(sock, Mode.INTEGER)`: STRING receive, then `int(...)` if
non-empty (`ValueError` on parse failure), else `None`. -/
def receiveInteger (bs : List Nat) : Except PyErr (Option Int) :=
  let s := receiveString bs
  if s.length > 0 then
    match pyInt? s with
    | some n => .ok (some n)
    | none => .error .valueError
  else .ok none

/-- Receive path `_receive(sock, Mode.FLOAT)`: STRING receive, then `float(...)` if
non-empty (`ValueError` on parse failure), else `None`. -/
def receiveFloat (bs : List Nat) : Except PyErr (Option PyFloat) :=
  let s := receiveString bs
  if s.length > 0 then
    match pyFloat? s with
    | some q => .ok (some q)
    | none => .error .valueError
  else .ok none

/-- The `Mode.BINARY` receive loop of `_receive`:
`while total_read < length: tmp = sock.recv(length - total_read); ...`.
`chunks` is the trace of `recv` results; exhausting it while still short
models the stream being closed, upon which Python's loop re-issues
`recv` (returning `b''`) forever — the model returns `none` for that
divergence.  On exit returns the accumulated bytes and the unconsumed
remainder of the trace. -/
def recvLoop (length : Nat) : List (List Nat) → List Nat →
    Option (List Nat × List (List Nat))
  | [], acc => if length ≤ acc.length then some (acc, []) else none
  | c :: rest, acc =>
      if length ≤ acc.length then some (acc, c :: rest)
      else recvLoop length rest (acc ++ c)

/-- Receive path `_receive(sock, Mode.BINARY, length)`: `ValueError` when
`length <= 0`, otherwise the receive loop (`.ok none` = the loop never
terminates because the stream closed early). -/
def receiveBinary (chunks : List (List Nat)) (length : Int) :
    Except PyErr (Option (List Nat)) :=
  if length ≤ 0 then .error .valueError
  else .ok ((recvLoop length.toNat chunks []).map Prod.fst)

/-! ### UView session (`_uview.py`) -/

/-- The `FileFormat` enum; `fileFormatValue` gives the Python `.value`. -/
inductive FileFormat where
  | DAT | PNG | TIFF | BMP | JPG | TIFF16
  deriving DecidableEq, Repr

def fileFormatValue : FileFormat → Nat
  | .DAT => 0 | .PNG => 1 | .TIFF => 2 | .BMP => 3 | .JPG => 4 | .TIFF16 => 5

/-- The `FileContents` enum; `fileContentsValue` gives the Python `.value`. -/
inductive FileContents where
  | PROCESSED | RAW | GRAY16
  deriving DecidableEq, Repr

def fileContentsValue : FileContents → Nat
  | .PROCESSED => 0 | .RAW => 1 | .GRAY16 => 2

/-- Method `UView.export_image(name, format, contents)`.  `reply` is the peer's
reply to the `exp` request if one is issued.  Returns the list of
request texts written to the transport, paired with the exception
raised, if any.

The validation `match` is embedded exactly as the source executes it:
the source's first case is `case FileFormat.TIFF, FileFormat.BMP:`,
which Python parses as a two-element *sequence pattern*; a scalar
`FileFormat` member never matches a sequence pattern, so that case
body (the GRAY16 rejection) is unreachable and only the `JPG` case can
fire. -/
def exportImage (name : String) (format : FileFormat)
    (contents : FileContents) (reply : String) :
    List String × Option PyErr :=
  if name = "" then ([], some .valueError)
  else if 260 ≤ name.length then ([], some .valueError)
  else
    let jpgReject : Bool := format = FileFormat.JPG && contents ≠ FileContents.PROCESSED
    if jpgReject then ([], some .valueError)
    else
      let fv := fileFormatValue format
      let cv := fileContentsValue contents
      let cmd := s!"exp {fv}, {cv}, {name}"
      let items := pySplit reply
      if items.length = 2 ∧ items.getD 0 "" = "ErrorCode" then
        ([cmd], some .systemError)
      else ([cmd], none)

/-- Round half to even on rationals — the rounding Python's `'%.0f'` /
`f'{x:.0f}'` formatting applies. -/
def roundHalfEven (q : PyFloat) : Int :=
  let d : Int := (10 : Int) ^ q.exp
  let f : Int := Int.fdiv q.num d
  let r2 : Int := 2 * (q.num - f * d)
  if r2 < d then f
  else if d < r2 then f + 1
  else if f % 2 = 0 then f else f + 1

/-- Python `f'{q:.0f}'` for a (rational-modelled) float: round half to
even to an integer; a negative value rounding to zero prints `-0`. -/
def pyFormatF0 (q : PyFloat) : String :=
  let n := roundHalfEven q
  if n = 0 ∧ q.num < 0 then "-0" else toString n

/-- Method `UView.set_exposure_time(exposure)`: the list of request texts
written to the transport.  The argument is modelled as the exact
rational value of the Python float. -/
def setExposureTime (connected : Bool) (exposure : PyFloat) : List String :=
  let e := pyFormatF0 exposure
  if connected then [s!"ext {e}"] else []

/-- Decoding `bytes.decode('ascii')`: `none` models `UnicodeDecodeError` on any
byte ≥ 128. -/
def pyDecodeAscii (bs : List Nat) : Option String :=
  if bs.all (fun b => b < 128) then some (String.mk (bs.map Char.ofNat))
  else none

/-- Sample decoding `np.frombuffer(image, np.uint16)` on x86: consecutive byte pairs as
little-endian unsigned 16-bit samples. -/
def decodeU16 : List Nat → List Nat
  | b0 :: b1 :: rest => (b0 + 256 * b1) :: decodeU16 rest
  | _ => []

/-- Reshaping `image.reshape((width, height))` row-major: `width` rows of
`height` samples each. -/
def pyReshape (width height : Nat) (xs : List Nat) : List (List Nat) :=
  (List.range width).map (fun i => (xs.drop (i * height)).take height)

/-- Outcome of `UView.get_image`. -/
inductive ImgResult where
  /-- Not connected: the function returns `None` without touching the
  stream. -/
  | notConnected
  /-- Header token count ≠ 3: returns `None`; carries the unconsumed
  remainder of the recv trace. -/
  | noImage (rest : List (List Nat))
  /-- Success: the reshaped sample grid and the unconsumed remainder of
  the recv trace. -/
  | image (rows : List (List Nat)) (rest : List (List Nat))
  /-- A Python exception propagated. -/
  | err (e : PyErr)
  /-- A binary receive loop never terminates (stream closed early). -/
  | hang
  deriving DecidableEq, Repr

/-- Method `UView.get_image()` over a recv-trace model of the socket's read
side (the `"ida 0 0"` request write is implicit; `chunks` is the trace
of `recv` results that follow it). -/
def getImage (connected : Bool) (chunks : List (List Nat)) : ImgResult :=
  if connected = false then .notConnected
  else
    match recvLoop 19 chunks [] with
    | none => .hang
    | some (hdrBytes, s1) =>
      match pyDecodeAscii hdrBytes with
      | none => .err .unicodeError
      | some header =>
        let items := pySplit header
        if items.length ≠ 3 then .noImage s1
        else
          match pyInt? (items.getD 1 "") with
          | none => .err .valueError
          | some w =>
            match pyInt? (items.getD 2 "") with
            | none => .err .valueError
            | some h =>
              let n : Int := w * h * 2
              if n ≤ 0 then .err .valueError
              else
                match recvLoop n.toNat s1 [] with
                | none => .hang
                | some (body, s2) =>
                  if body.length % 2 ≠ 0 then .err .valueError
                  else
                    match recvLoop 1 s2 [] with
                    | none => .hang
                    | some (_, s3) =>
                      if w < 0 ∨ h < 0 ∨
                          (decodeU16 body).length ≠ w.toNat * h.toNat then
                        .err .valueError
                      else .image (pyReshape w.toNat h.toNat (decodeU16 body)) s3

/-! ### Leem2000 session (`_leem2000.py`) -/

/-- The module directory attributes of a `Leem2000` instance
(`self.name`, `self.mnemonic`, `self.idByName`, `self.idByMnemonic`,
`self.unit`, `self.lowLimit`, `self.highLimit`), grouped into the
spec's ModuleDirectory entity.  Keys are Python ints. -/
structure ModuleDirectory where
  name : List (Int × String)
  mnemonic : List (Int × String)
  idByName : List (String × Int)
  idByMnemonic : List (String × Int)
  unit : List (Int × String)
  lowLimit : List (Int × PyFloat)
  highLimit : List (Int × PyFloat)
  deriving DecidableEq, Repr

/-- The fresh empty maps `update_modules` assigns before its scan loop. -/
def emptyDir : ModuleDirectory :=
  ⟨[], [], [], [], [], [], []⟩

/-- The mutable attributes of a `Leem2000` instance relevant to the
session-layer claims. -/
structure LeemState where
  connected : Bool
  nrModules : Option Int
  dir : ModuleDirectory
  values : List (Int × PyFloat)
  deriving DecidableEq, Repr

/-- Command helper `_cmd(sock, c, Mode.INTEGER)` at the reply-oracle level: the reply
text is parsed exactly as the INTEGER receive does (empty ⇒ `None`,
non-numeric ⇒ `ValueError`). -/
def cmdInt (o : String → String) (c : String) : Except PyErr (Option Int) :=
  let s := o c
  if s.length > 0 then
    match pyInt? s with
    | some n => .ok (some n)
    | none => .error .valueError
  else .ok none

/-- One iteration of the `update_modules` scan loop for index `x`, on
the directory being built: query `nam x` / `mne x`, filter sentinels;
query `uni x` only when the name was accepted; query `psl x` / `psh x`,
parsing non-sentinel replies with `float(...)` (whose `ValueError`
aborts the scan). -/
def scanStep (o : String → String) (x : Int) (d : ModuleDirectory) :
    ModuleDirectory × Option PyErr :=
  let nm := o s!"nam {x}"
  let d :=
    if isSentinel nm then d
    else { d with name := dinsert x nm d.name,
                  idByName := dinsert (pyUpper nm) x d.idByName }
  let mn := o s!"mne {x}"
  let d :=
    if isSentinel mn then d
    else { d with mnemonic := dinsert x mn d.mnemonic,
                  idByMnemonic := dinsert (pyUpper mn) x d.idByMnemonic }
  let d :=
    if dmem x d.name then
      let u := o s!"uni {x}"
      if isSentinel u then d else { d with unit := dinsert x u d.unit }
    else d
  let low := o s!"psl {x}"
  let step2 : ModuleDirectory → ModuleDirectory × Option PyErr := fun d =>
    let high := o s!"psh {x}"
    if isSentinel high then (d, none)
    else
      match pyFloat? high with
      | none => (d, some .valueError)
      | some v => ({ d with highLimit := dinsert x v d.highLimit }, none)
  if isSentinel low then step2 d
  else
    match pyFloat? low with
    | none => (d, some .valueError)
    | some v => step2 { d with lowLimit := dinsert x v d.lowLimit }

/-- The `for x in range(nrModules)` loop of `update_modules`; an
exception stops the scan, leaving the directory as mutated so far. -/
def scanDir (o : String → String) :
    List Int → ModuleDirectory → ModuleDirectory × Option PyErr
  | [], d => (d, none)
  | x :: xs, d =>
      match scanStep o x d with
      | (d', none) => scanDir o xs d'
      | (d', some e) => (d', some e)

/-- Python `range(n)` over ints. -/
def pyRange (n : Int) : List Int :=
  (List.range n.toNat).map Int.ofNat

/-- Method `Leem2000.update_modules()`.  Queries `nrm` first (a failed int
parse there propagates before any map is touched); then assigns fresh
empty maps and runs the scan loop.  An `nrm` reply of `None` resets the
maps and then raises `TypeError` from `range(None)`.  Returns the
resulting object state (including partial mutations when the scan
raises) and the exception, if any. -/
def updateModules (st : LeemState) (o : String → String) :
    LeemState × Option PyErr :=
  if st.connected = false then (st, some .connectionError)
  else
    match cmdInt o "nrm" with
    | .error e => (st, some e)
    | .ok none => ({ st with nrModules := none, dir := emptyDir }, some .typeError)
    | .ok (some n) =>
        let r := scanDir o (pyRange n) emptyDir
        ({ st with nrModules := some n, dir := r.1 }, r.2)

/-- Method `Leem2000.update_values()`: reset `self.values`, then for each key
of the mnemonic map (in insertion order) query `get <key>` and record
the reply when it parses as a float, silently skipping it otherwise. -/
def updateValues (st : LeemState) (o : String → String) :
    LeemState × Option PyErr :=
  if st.connected = false then (st, some .connectionError)
  else
    let vals := st.dir.mnemonic.foldl
      (fun acc kv =>
        let k := kv.1
        match pyFloat? (o s!"get {k}") with
        | some v => dinsert k v acc
        | none => acc) []
    ({ st with values := vals }, none)

/-- Method `Leem2000.connect()`: a no-op when already connected; otherwise
establish the connection (socket creation abstracted), mark the session
connected, then run `update_modules` followed by `update_values` (an
exception from the former propagates before the latter runs). -/
def connect (st : LeemState) (o : String → String) :
    LeemState × Option PyErr :=
  if st.connected then (st, none)
  else
    match updateModules { st with connected := true } o with
    | (st2, some e) => (st2, some e)
    | (st2, none) => updateValues st2 o

/-- Python values a `set_value` argument can take, as far as the typing
checks distinguish them.  Python's `bool` is a subclass of `int`, so
`isinstance(b, int)` holds for booleans. -/
inductive PyVal where
  | int (n : Int)
  | float (q : PyFloat)
  | bool (b : Bool)
  | str (s : String)
  deriving DecidableEq, Repr

/-- Check `isinstance(v, (int, float)) and not isinstance(v, bool)`. -/
def isNumericNonBool : PyVal → Bool
  | .int _ => true
  | .float _ => true
  | .bool _ => false
  | .str _ => false

/-- The text an f-string interpolates for a `PyVal`.  The rendering of
a float value is abstracted to a decimal rendering of the exact scaled
decimal; no claim under verification inspects the text of a request
that interpolates a float. -/
def pyValStr : PyVal → String
  | .int n => toString n
  | .float q =>
      let n := q.num
      let e := q.exp
      s!"{n}e-{e}"
  | .bool b => if b then "True" else "False"
  | .str s => s

/-- Method `Leem2000.set_value(id, value)`: result paired with the list of
request texts written to the transport.  `reply` is the peer's reply to
the `set` request if one is issued. -/
def setValue (st : LeemState) (id value : PyVal) (o : String → String) :
    Except PyErr Bool × List String :=
  if st.connected = false then (.error .connectionError, [])
  else if isNumericNonBool value then
    let send : Unit → Except PyErr Bool × List String := fun _ =>
      let ids := pyValStr id
      let vs := pyValStr value
      let cmd := s!"set {ids}={vs}"
      (.ok (o cmd = "0"), [cmd])
    match id with
    | .str s =>
        if ¬ dmem (pyUpper s) st.dir.idByName ∧ ¬ dmem (pyUpper s) st.dir.idByMnemonic then
          (.ok false, [])
        else send ()
    | .int _ => send ()
    | .bool _ => send ()
    | .float _ => (.error .typeError, [])
  else (.error .typeError, [])

/-- A change record produced by `get_modified_modules`:
`{'moduleName': ..., 'moduleNr': ..., 'newValue': ...}`. -/
structure ChangeRecord where
  moduleName : String
  moduleNr : Int
  newValue : PyFloat
  deriving DecidableEq, Repr

/-- Module-name resolution inside the `get_modified_modules` loop:
directory name when the index is present, `Unknown<idx>` otherwise. -/
def resolveName (nm : List (Int × String)) (idx : Int) : String :=
  match dlookup idx nm with
  | some s => s
  | none => s!"Unknown{idx}"

/-- The `for i in range(nchanges)` loop of `get_modified_modules`:
`idx = int(items[2*i+1]); val = float(items[2*i+2])`, name resolved
through the directory; `IndexError` on a missing token, `ValueError`
on a failed parse. -/
def chmGo (nm : List (Int × String)) (items : List String) (i : Nat) :
    Nat → Except PyErr (List ChangeRecord)
  | 0 => .ok []
  | r + 1 =>
      match items.get? (2 * i + 1) with
      | none => .error .indexError
      | some si =>
        match pyInt? si with
        | none => .error .valueError
        | some idx =>
          match items.get? (2 * i + 2) with
          | none => .error .indexError
          | some sv =>
            match pyFloat? sv with
            | none => .error .valueError
            | some v =>
                (chmGo nm items (i + 1) r).map
                  (fun recs => ⟨resolveName nm idx, idx, v⟩ :: recs)

/-- Method `Leem2000.get_modified_modules()` at the reply-oracle level. -/
def getModifiedModules (st : LeemState) (o : String → String) :
    Except PyErr (Int × Option (List ChangeRecord)) :=
  if st.connected = false then .error .connectionError
  else
    let data := o "chm"
    if data ≠ "0" then
      let items := pySplit data
      match items.get? 0 with
      | none => .error .indexError
      | some t0 =>
        match pyInt? t0 with
        | none => .error .valueError
        | some n => (chmGo st.dir.name items 0 n.toNat).map (fun recs => (n, some recs))
    else .ok (0, none)

/-- Specification-side description of a well-formed `chm` reply tail:
`ts` starts with `2*n` tokens forming `n` (index, value) pairs whose
parses are the list `ps`. -/
def pairsParse : List String → Nat → List (Int × PyFloat) → Bool
  | _, 0, ps => ps.isEmpty
  | si :: sv :: rest, n + 1, (i, v) :: ps =>
      decide (pyInt? si = some i) && decide (pyFloat? sv = some v)
        && pairsParse rest n ps
  | _, _, _ => false

/-! ## Theorems -/

/-- Claim C1 (code bug): the claim says TIFF or BMP combined with GRAY16
fails with InvalidArgument before any network request — as the method's
own docstring also implies (it lists only PROCESSED and RAW for TIFF and
BMP).  The code's `case FileFormat.TIFF, FileFormat.BMP:` is a sequence
pattern that can never match a scalar enum member, so the GRAY16
rejection is unreachable: `export_image('a', TIFF, GRAY16)` issues the
`exp` request and raises nothing. -/
theorem c1_export_tiff_gray16_sends_request :
    exportImage "a" FileFormat.TIFF FileContents.GRAY16 "0" =
      (["exp 2, 2, a"], none)
  ∧ exportImage "a" FileFormat.BMP FileContents.GRAY16 "0" =
      (["exp 3, 2, a"], none)
  ∧ exportImage "a" FileFormat.JPG FileContents.RAW "0" =
      ([], some .valueError) :=
  ⟨rfl, rfl, rfl⟩

/-- Claim C2 (code bug): the claim says a stream closing (a read
yielding zero bytes) before `length` bytes arrive fails with
ConnectionClosed rather than hanging.  The code's
`while total_read < length` loop never tests for an empty read, so once
the stream is closed `recv` yields `b''` forever and the loop never
terminates — modelled as the `none` outcome: two bytes requested, one
byte delivered before closure, and the call hangs instead of failing. -/
theorem c2_binary_eof_hangs :
    receiveBinary [[65]] 2 = .ok none := by
  rfl

/-- Claim C4 (code bug): the claim (and the method's docstring, which
says the decimal part is ignored) calls for truncation, sending
`ext 1` for `ms = 1.7`.  The code formats with `f'{exposure:.0f}'`,
which rounds to the nearest integer: `ms = 1.7` sends `ext 2`.
(The binary double closest to 1.7 also rounds to 2, so the exact
decimal model and the float agree here.) -/
theorem c4_exposure_time_rounds :
    setExposureTime true ⟨17, 1⟩ = ["ext 2"] ∧ pyFloat? "1.7" = some ⟨17, 1⟩ := by
  exact ⟨rfl, rfl⟩

/-- An example directory holding module 3 under the name `Gun`. -/
def gunDir : ModuleDirectory :=
  { emptyDir with name := [(3, "Gun")], idByName := [("GUN", 3)] }

/-- An example connected session owning `gunDir`. -/
def gunState : LeemState :=
  { connected := true, nrModules := some 9, dir := gunDir, values := [] }

/-- Claim C8: on a connected session, `set_value` with a string id whose
upper-cased form is in neither reverse map and a numeric non-boolean
value fails with NotFound (the `False` return) and writes nothing to
the transport. -/
theorem c8_set_value_unresolved (st : LeemState) (s : String) (v : PyVal)
    (o : String → String)
    (hc : st.connected = true)
    (hn : dmem (pyUpper s) st.dir.idByName = false)
    (hm : dmem (pyUpper s) st.dir.idByMnemonic = false)
    (hv : isNumericNonBool v = true) :
    setValue st (.str s) v o = (.ok false, []) := by
  simp [setValue, hc, hv, hn, hm]

/-- Witness for C8: `set_value('bogus', 1.0)` against a directory that
only knows `Gun`. -/
theorem c8_set_value_unresolved_witness :
    gunState.connected = true
  ∧ dmem (pyUpper "bogus") gunState.dir.idByName = false
  ∧ dmem (pyUpper "bogus") gunState.dir.idByMnemonic = false
  ∧ isNumericNonBool (.float ⟨1, 0⟩) = true
  ∧ setValue gunState (.str "bogus") (.float ⟨1, 0⟩) (fun _ => "") =
      (.ok false, []) :=
  ⟨rfl, rfl, rfl, rfl,
    c8_set_value_unresolved gunState "bogus" (.float ⟨1, 0⟩) (fun _ => "")
      rfl rfl rfl rfl⟩

/-- A string of length zero is the empty string. -/
theorem string_eq_empty_of_length_eq_zero (t : String) (ht : t.length = 0) :
    t = "" := by
  obtain ⟨d⟩ := t
  cases d with
  | nil => rfl
  | cons a l => simp [String.length] at ht

/-- Claim C9: INTEGER and FLOAT receives delegate to the STRING receive
and parse its result: an empty received string yields the missing value
`none` (never zero, never an error); a non-empty string that does not
parse as the requested kind of number fails with FormatError
(`ValueError`). -/
theorem c9_numeric_receive (bs : List Nat) :
    (receiveString bs = "" →
      receiveInteger bs = .ok none ∧ receiveFloat bs = .ok none)
  ∧ (receiveString bs ≠ "" → pyInt? (receiveString bs) = none →
      receiveInteger bs = .error .valueError)
  ∧ (receiveString bs ≠ "" → pyFloat? (receiveString bs) = none →
      receiveFloat bs = .error .valueError) := by
  have hpos : receiveString bs ≠ "" → 0 < (receiveString bs).length := by
    intro h
    exact Nat.pos_of_ne_zero
      (fun h0 => h (string_eq_empty_of_length_eq_zero _ h0))
  refine ⟨fun h => ?_, fun h hp => ?_, fun h hp => ?_⟩
  · simp [receiveInteger, receiveFloat, h]
  · simp [receiveInteger, hpos h, hp]
  · simp [receiveFloat, hpos h, hp]

/-- Witness for C9: the stream `"a\x00"` fails both parses, the stream
`"\x00"` yields the missing value under both modes. -/
theorem c9_numeric_receive_witness :
    receiveInteger [97, 0] = .error .valueError
  ∧ receiveFloat [97, 0] = .error .valueError
  ∧ (receiveInteger [0] = .ok none ∧ receiveFloat [0] = .ok none) :=
  ⟨(c9_numeric_receive [97, 0]).2.1 (by decide) rfl,
   (c9_numeric_receive [97, 0]).2.2 (by decide) rfl,
   (c9_numeric_receive [0]).1 rfl⟩

/-- Retrieving a null-terminated ASCII encoding recovers the characters
before the terminator. -/
theorem receiveStringAux_map_toNat (cs : List Char)
    (h : ∀ c ∈ cs, 0 < c.toNat ∧ c.toNat < 128) :
    receiveStringAux (cs.map Char.toNat ++ [0]) = cs := by
  induction cs with
  | nil => rfl
  | cons c rest ih =>
      have hc := h c (by simp)
      have hne : c.toNat ≠ 0 := Nat.pos_iff_ne_zero.mp hc.1
      simp [receiveStringAux, hne, Char.ofNat_toNat,
        ih (fun x hx => h x (by simp [hx]))]

/-- Claim C5 (amended): for every text of non-null ASCII characters,
a STRING-mode send with the delimiter enabled followed by a
STRING-mode receive on the produced bytes reproduces the text exactly,
terminator excluded.  (The restriction to code points below 128 is
forced: the send encodes with `'ascii'` — see the counterexample.) -/
theorem c5_string_roundtrip (s : String)
    (h : ∀ c ∈ s.data, 0 < c.toNat ∧ c.toNat < 128) :
    ∃ bs, sendString s true = some bs ∧ receiveString bs = s := by
  obtain ⟨d⟩ := s
  refine ⟨d.map Char.toNat ++ [0], ?_, ?_⟩
  · have hall : ((d ++ ['\x00']).all fun c => decide (c.toNat < 128)) = true := by
      simp only [List.all_append, List.all_cons, Bool.and_eq_true]
      refine ⟨?_, by decide⟩
      rw [List.all_eq_true]
      intro c hc
      exact decide_eq_true (h c hc).2
    simp only [sendString, encodeAscii, String.push, if_true]
    rw [if_pos hall]
    simp
  · simp [receiveString, receiveStringAux_map_toNat d h]

/-- Counterexample for C5 as stated: `"é"` contains no null byte, yet
`'ascii'` encoding raises, so no byte stream is produced and nothing is
reproduced. -/
theorem c5_counterexample :
    ¬ ∃ bs, sendString "é" true = some bs ∧ receiveString bs = "é" := by
  rintro ⟨bs, hb, -⟩
  have hn : sendString "é" true = none := by rfl
  rw [hn] at hb
  exact Option.noConfusion hb

/-- Witness for C5: the ASCII text `"ok"` round-trips. -/
theorem c5_string_roundtrip_witness :
    (∀ c ∈ ("ok" : String).data, 0 < c.toNat ∧ c.toNat < 128)
  ∧ ∃ bs, sendString "ok" true = some bs ∧ receiveString bs = "ok" :=
  ⟨by decide, c5_string_roundtrip "ok" (by decide)⟩

/-- A discovery-scan oracle whose `psl 0` reply `"bad"` is not a
sentinel and fails the float parse, aborting the scan mid-rebuild. -/
def c3Oracle : String → String := fun c =>
  if c = "nrm" then "1"
  else if c = "nam 0" then "New"
  else if c = "uni 0" then "U"
  else if c = "psl 0" then "bad"
  else ""

/-- A connected session whose current directory maps index 0 to
`"Old"`. -/
def c3OldState : LeemState :=
  { connected := true, nrModules := some 1,
    dir := { emptyDir with name := [(0, "Old")] }, values := [] }

/-- Counterexample for C3 as stated: a `psl` reply that fails the float
parse aborts `update_modules` mid-scan, yet the directory the caller
sees afterwards is the partially rebuilt one (index 0 now `"New"`), not
the previously stored one — the old maps were discarded at the start of
the scan, not at its end. -/
theorem c3_counterexample :
    (updateModules c3OldState c3Oracle).2 ≠ none
  ∧ (updateModules c3OldState c3Oracle).1.dir.name ≠ c3OldState.dir.name := by
  refine ⟨?_, ?_⟩
  · rw [show (updateModules c3OldState c3Oracle).2 = some .valueError from rfl]
    exact Option.noConfusion
  · rw [show (updateModules c3OldState c3Oracle).1.dir.name = [(0, "New")] from rfl]
    intro hcontra
    exact absurd (congrArg (fun l => dlookup 0 l) hcontra) (by decide)

/-- Claim C3 (amended): `update_modules` discards the previously stored
maps as soon as the module-count query has answered, and rebuilds them
incrementally: whenever the `nrm` reply parses, the resulting directory
(complete, or partial after a mid-scan failure) and the reported error
are determined by the scan replies alone, independent of the previously
stored maps — so a failure mid-scan leaves the caller a partially
rebuilt directory, not the old one. -/
theorem c3_update_modules_discards_old (st st' : LeemState)
    (o : String → String)
    (hc : st.connected = true) (hc' : st'.connected = true)
    (hok : (cmdInt o "nrm").isOk = true) :
    (updateModules st o).1.dir = (updateModules st' o).1.dir
  ∧ (updateModules st o).2 = (updateModules st' o).2 := by
  unfold updateModules
  rcases h : cmdInt o "nrm" with e | v
  · rw [h] at hok
    exact absurd hok (by simp [Except.isOk, Except.toBool])
  · rcases v with _ | n <;> simp [hc, hc', h]

/-- Witness for C3 (amended): two connected sessions with different old
directories end the same failed scan with the same partially rebuilt
directory and the same error. -/
theorem c3_update_modules_discards_old_witness :
    c3OldState.connected = true ∧ gunState.connected = true
  ∧ (cmdInt c3Oracle "nrm").isOk = true
  ∧ ((updateModules c3OldState c3Oracle).1.dir =
        (updateModules gunState c3Oracle).1.dir
     ∧ (updateModules c3OldState c3Oracle).2 =
        (updateModules gunState c3Oracle).2) :=
  ⟨rfl, rfl, rfl,
    c3_update_modules_discards_old c3OldState gunState c3Oracle rfl rfl rfl⟩

/-- The indexed `chm` loop consumes the `2*r` tokens that follow the
`2*i+1` already-consumed ones, producing one record per parsed
(index, value) pair in order. -/
theorem chmGo_spec (nm : List (Int × String)) :
    ∀ (r : Nat) (ts : List String) (ps : List (Int × PyFloat)) (i : Nat)
      (pre : List String),
      pre.length = 2 * i + 1 → pairsParse ts r ps = true →
      chmGo nm (pre ++ ts) i r =
        .ok (ps.map fun p => ⟨resolveName nm p.1, p.1, p.2⟩) := by
  intro r
  induction r with
  | zero =>
      intro ts ps i pre hlen hp
      have hps : ps = [] := by
        cases ts <;> simpa [pairsParse] using hp
      subst hps
      rfl
  | succ r ih =>
      intro ts ps i pre hlen hp
      cases ts with
      | nil => simp [pairsParse] at hp
      | cons si ts1 =>
        cases ts1 with
        | nil => simp [pairsParse] at hp
        | cons sv rest =>
          cases ps with
          | nil => simp [pairsParse] at hp
          | cons p ps1 =>
            obtain ⟨idx, v⟩ := p
            simp only [pairsParse, Bool.and_eq_true, decide_eq_true_eq] at hp
            obtain ⟨⟨h1, h2⟩, h3⟩ := hp
            have e1 : (pre ++ si :: sv :: rest).get? (2 * i + 1) = some si := by
              rw [List.get?_append_right (by omega)]
              simp [hlen]
            have e2 : (pre ++ si :: sv :: rest).get? (2 * i + 2) = some sv := by
              rw [List.get?_append_right (by omega)]
              have : 2 * i + 2 - pre.length = 1 := by omega
              simp [this]
            have e3 : pre ++ si :: sv :: rest = (pre ++ [si, sv]) ++ rest := by
              simp
            have e4 := ih rest ps1 (i + 1) (pre ++ [si, sv])
              (by simp [hlen]; omega) h3
            rw [e3] at e1 e2
            rw [e3]
            simp only [chmGo, e1, e2, h1, h2, e4, Except.map]
            rfl

/-- A reply oracle answering the `chm` poll with two changes. -/
def chmOracle : String → String := fun c =>
  if c = "chm" then "2 3 1.5 7 2.25" else ""

/-- Claim C7: `get_modified_modules` on a connected session returns
(0, no changes) for the literal reply `"0"`; for every other reply
whose first whitespace token parses as a count `N` followed by `2*N`
tokens forming `N` (index, value) pairs, it returns `N` together with
the `N` records in reply order, each resolved against the directory
name map with the `Unknown<index>` fallback. -/
theorem c7_get_modified_modules (st : LeemState) (o : String → String)
    (hc : st.connected = true) :
    (o "chm" = "0" → getModifiedModules st o = .ok (0, none))
  ∧ (∀ (t0 : String) (ts : List String) (N : Nat) (ps : List (Int × PyFloat)),
      o "chm" ≠ "0" → pySplit (o "chm") = t0 :: ts →
      pyInt? t0 = some ((N : Nat) : Int) → pairsParse ts N ps = true →
      getModifiedModules st o =
        .ok (((N : Nat) : Int),
          some (ps.map fun p => ⟨resolveName st.dir.name p.1, p.1, p.2⟩))) := by
  constructor
  · intro h
    simp [getModifiedModules, hc, h]
  · intro t0 ts N ps hne hsplit hn hp
    have hgo := chmGo_spec st.dir.name N ts ps 0 [t0] (by simp) hp
    simp only [List.singleton_append] at hgo
    simp [getModifiedModules, hc, hne, hsplit, hn, Int.toNat_natCast, hgo,
      Except.map]

/-- Witness for C7: the spec's own example — reply `"2 3 1.5 7 2.25"`
against a directory knowing only index 3 as `Gun` — and the `"0"`
reply. -/
theorem c7_get_modified_modules_witness :
    gunState.connected = true
  ∧ chmOracle "chm" ≠ "0"
  ∧ pySplit (chmOracle "chm") = "2" :: ["3", "1.5", "7", "2.25"]
  ∧ pyInt? "2" = some ((2 : Nat) : Int)
  ∧ pairsParse ["3", "1.5", "7", "2.25"] 2 [(3, ⟨15, 1⟩), (7, ⟨225, 2⟩)] = true
  ∧ getModifiedModules gunState chmOracle =
      .ok (2, some [⟨"Gun", 3, ⟨15, 1⟩⟩, ⟨"Unknown7", 7, ⟨225, 2⟩⟩])
  ∧ getModifiedModules gunState (fun _ => "0") = .ok (0, none) :=
  ⟨rfl, by decide, rfl, rfl, rfl,
    (c7_get_modified_modules gunState chmOracle rfl).2
      "2" ["3", "1.5", "7", "2.25"] 2 [(3, ⟨15, 1⟩), (7, ⟨225, 2⟩)]
      (by decide) rfl rfl rfl,
    (c7_get_modified_modules gunState (fun _ => "0") rfl).1 rfl⟩

/-- A receive loop whose first `recv` already delivers at least the
requested (positive) amount consumes exactly that one chunk. -/
theorem recvLoop_exact (n : Nat) (c : List Nat) (rest : List (List Nat))
    (h0 : 0 < n) (hle : n ≤ c.length) :
    recvLoop n (c :: rest) [] = some (c, rest) := by
  have hstop : ∀ chunks : List (List Nat), recvLoop n chunks c = some (c, chunks) := by
    intro chunks
    cases chunks <;> simp [recvLoop, hle]
  rw [recvLoop]
  rw [if_neg (by simp; omega)]
  simpa using hstop rest

/-- Each unsigned 16-bit sample consumes two bytes. -/
theorem decodeU16_length : ∀ bs : List Nat,
    (decodeU16 bs).length = bs.length / 2
  | [] => rfl
  | [_] => by simp [decodeU16]
  | _ :: _ :: rest => by
      simp only [decodeU16, List.length_cons, decodeU16_length rest]
      omega

/-- Claim C6 (amended): `get_image` reads exactly a 19-byte header; a
header that does not split into 3 tokens returns the no-image result
with nothing beyond the 19 header bytes consumed; a header splitting
into 3 tokens whose width and height tokens parse as integers with
`width * height` positive makes the call read exactly
`width * height * 2` body bytes as unsigned 16-bit samples, then read
and discard exactly one trailing byte, and return the samples reshaped
to width × height.  (The positivity restriction is forced: a zero-area
header makes the body receive raise instead — see the
counterexample.) -/
theorem c6_get_image (hdr : List Nat) (s : String)
    (hlen : hdr.length = 19) (hdec : pyDecodeAscii hdr = some s) :
    (∀ rest : List (List Nat), (pySplit s).length ≠ 3 →
      getImage true (hdr :: rest) = .noImage rest)
  ∧ (∀ (t1 t2 t3 : String) (w h : Nat) (body : List Nat) (t : Nat)
        (rest : List (List Nat)),
      pySplit s = [t1, t2, t3] →
      pyInt? t2 = some ((w : Nat) : Int) → pyInt? t3 = some ((h : Nat) : Int) →
      0 < w * h → body.length = w * h * 2 →
      getImage true (hdr :: body :: [t] :: rest) =
        .image (pyReshape w h (decodeU16 body)) rest) := by
  constructor
  · intro rest h3
    rw [getImage]
    rw [recvLoop_exact 19 hdr rest (by omega) (by omega)]
    simp [hdec, h3]
  · intro t1 t2 t3 w h body t rest hsplit hw hh hpos hbody
    rw [getImage]
    rw [recvLoop_exact 19 hdr (body :: [t] :: rest) (by omega) (by omega)]
    have hcast : ((w : Int) * (h : Int) * 2) = ((w * h * 2 : Nat) : Int) := by
      push_cast
      ring
    have hnat : 0 < w * h * 2 := by omega
    have hn : ¬ ((w : Int) * (h : Int) * 2 ≤ 0) := by
      rw [hcast, Int.not_le]
      exact_mod_cast hnat
    have hrecv2 : recvLoop ((w : Int) * (h : Int) * 2).toNat
        (body :: [t] :: rest) [] = some (body, [t] :: rest) := by
      rw [hcast, Int.toNat_natCast]
      exact recvLoop_exact (w * h * 2) body ([t] :: rest) (by omega) (by omega)
    have hrecv3 : recvLoop 1 ([t] :: rest) [] = some ([t], rest) :=
      recvLoop_exact 1 [t] rest (by decide) (by simp)
    have hmod : body.length % 2 = 0 := by omega
    have hcount : (decodeU16 body).length = ((w : Int)).toNat * ((h : Int)).toNat := by
      rw [decodeU16_length, hbody, Int.toNat_natCast, Int.toNat_natCast]
      omega
    simp [hdec, hsplit, hw, hh, hn, hrecv2, hmod, hrecv3, hcount,
      Int.toNat_natCast]

/-- Counterexample for C6 as stated: a 19-byte header splitting into
tokens `("B", "0", "1")` declares a zero-area image; the claim then
calls for reading 0 body bytes, one trailing byte, and returning an
empty 0 × 1 grid, but `_receive(sock, BINARY, 0)` raises `ValueError`
instead, before any further byte is consumed. -/
theorem c6_counterexample :
    getImage true
      [[66, 32, 48, 32, 49, 32, 32, 32, 32, 32, 32, 32, 32, 32, 32, 32, 32,
        32, 32], [55]] = .err .valueError
  ∧ (ImgResult.err .valueError ≠
      .image (pyReshape 0 1 (decodeU16 [])) []) :=
  ⟨rfl, by decide⟩

/-- The 19-byte header `"A 2 3"` padded with spaces. -/
def c6Hdr : List Nat :=
  [65, 32, 50, 32, 51, 32, 32, 32, 32, 32, 32, 32, 32, 32, 32, 32, 32, 32, 32]

/-- A 19-byte header `"BINARY 77"` padded with spaces — two tokens. -/
def c6Hdr2 : List Nat :=
  [66, 73, 78, 65, 82, 89, 32, 55, 55, 32, 32, 32, 32, 32, 32, 32, 32, 32, 32]

/-- Twelve body bytes encoding the u16 samples 1..6. -/
def c6Body : List Nat := [1, 0, 2, 0, 3, 0, 4, 0, 5, 0, 6, 0]

/-- Witness for C6: a 2 × 3 image is read and reshaped, and a two-token
header fails without consuming the would-be body. -/
theorem c6_get_image_witness :
    c6Hdr.length = 19
  ∧ pyDecodeAscii c6Hdr = some "A 2 3              "
  ∧ pySplit "A 2 3              " = ["A", "2", "3"]
  ∧ pyInt? "2" = some ((2 : Nat) : Int)
  ∧ pyInt? "3" = some ((3 : Nat) : Int)
  ∧ 0 < 2 * 3 ∧ c6Body.length = 2 * 3 * 2
  ∧ getImage true [c6Hdr, c6Body, [9], [7, 7]] =
      .image (pyReshape 2 3 (decodeU16 c6Body)) [[7, 7]]
  ∧ c6Hdr2.length = 19
  ∧ pyDecodeAscii c6Hdr2 = some "BINARY 77          "
  ∧ (pySplit "BINARY 77          ").length ≠ 3
  ∧ getImage true [c6Hdr2, [55]] = .noImage [[55]] :=
  ⟨rfl, rfl, rfl, rfl, rfl, by decide, rfl,
    (c6_get_image c6Hdr "A 2 3              " rfl rfl).2
      "A" "2" "3" 2 3 c6Body 9 [[7, 7]] rfl rfl rfl (by decide) rfl,
    rfl, rfl, by decide,
    (c6_get_image c6Hdr2 "BINARY 77          " rfl rfl).1 [[55]] (by decide)⟩

/-- Method `update_values` touches only the `values` attribute. -/
theorem updateValues_dir (st : LeemState) (o : String → String) :
    (updateValues st o).1.dir = st.dir
  ∧ (updateValues st o).1.connected = st.connected := by
  unfold updateValues
  split <;> exact ⟨rfl, rfl⟩

/-- Method `update_values` on a connected session never raises. -/
theorem updateValues_success (st : LeemState) (o : String → String)
    (h : st.connected = true) : (updateValues st o).2 = none := by
  simp [updateValues, h]

/-- Method `update_modules` never changes the connection flag. -/
theorem updateModules_connected (st : LeemState) (o : String → String) :
    (updateModules st o).1.connected = st.connected := by
  unfold updateModules
  split
  · rfl
  · split <;> rfl

/-- A reply oracle for a complete one-module discovery scan and value
snapshot. -/
def fullOracle : String → String := fun c =>
  if c = "nrm" then "1"
  else if c = "nam 0" then "M"
  else if c = "mne 0" then "mn"
  else if c = "uni 0" then "V"
  else if c = "psl 0" then "0.5"
  else if c = "psh 0" then "2"
  else if c = "get 0" then "1.5"
  else ""

/-- A session that has not been connected yet. -/
def freshState : LeemState :=
  { connected := false, nrModules := none, dir := emptyDir, values := [] }

/-- Claim C10: `connect` on a not-yet-connected session marks it
connected and then runs the full `update_modules` scan followed by the
full `update_values` snapshot before returning, so the fresh session's
directory and value snapshot are exactly the ones those scans
produce. -/
theorem c10_connect_populates (st : LeemState) (o : String → String)
    (hc : st.connected = false)
    (hok : (updateModules { st with connected := true } o).2 = none) :
    connect st o =
      updateValues (updateModules { st with connected := true } o).1 o
  ∧ (connect st o).1.connected = true
  ∧ (connect st o).1.dir =
      (updateModules { st with connected := true } o).1.dir
  ∧ (connect st o).1.values =
      (updateValues (updateModules { st with connected := true } o).1 o).1.values
  ∧ (connect st o).2 = none := by
  have hc2 : (updateModules { st with connected := true } o).1.connected = true :=
    updateModules_connected { st with connected := true } o
  have h1 : connect st o =
      updateValues (updateModules { st with connected := true } o).1 o := by
    unfold connect
    rw [hc]
    rcases hu : updateModules { st with connected := true } o with ⟨st2, e⟩
    rw [hu] at hok
    simp only at hok
    subst hok
    simp
  refine ⟨h1, ?_, ?_, ?_, ?_⟩
  · rw [h1, (updateValues_dir _ o).2, hc2]
  · rw [h1, (updateValues_dir _ o).1]
  · rw [h1]
  · rw [h1]
    exact updateValues_success _ o hc2

/-- Witness for C10: a fresh session connected through a complete
one-module scan. -/
theorem c10_connect_populates_witness :
    freshState.connected = false
  ∧ (updateModules { freshState with connected := true } fullOracle).2 = none
  ∧ (connect freshState fullOracle =
      updateValues
        (updateModules { freshState with connected := true } fullOracle).1
        fullOracle
     ∧ (connect freshState fullOracle).1.connected = true
     ∧ (connect freshState fullOracle).1.dir =
        (updateModules { freshState with connected := true } fullOracle).1.dir
     ∧ (connect freshState fullOracle).1.values =
        (updateValues
          (updateModules { freshState with connected := true } fullOracle).1
          fullOracle).1.values
     ∧ (connect freshState fullOracle).2 = none) :=
  ⟨rfl, rfl, c10_connect_populates freshState fullOracle rfl rfl⟩

end Elmitec
